import Mathlib

/-!
Verification development for the `openai-chat-app` regulatory RAG service.

The Python source is shallowly embedded: pure functions become Lean
functions, the mutable knowledge-base service becomes explicit state
passing, floating-point scores become `ℚ` (the score arithmetic in the
source only adds and multiplies small decimal literals), and fallible
calls (embedding, CSV sniffing) become `Except`/`Option` values.

Python strings are modelled by Lean `String`, with explicit helpers for
the Python primitives used by the source (`str.strip`, `str.lower`,
`needle in hay`, `sep.join`, `str.split`).
-/

namespace OpenAIChatApp

/-- Python `str.strip()` on the character list: drop whitespace from both ends. -/
def stripChars (l : List Char) : List Char :=
  ((l.dropWhile Char.isWhitespace).reverse.dropWhile Char.isWhitespace).reverse

/-- Python `str.strip()`. -/
def pyStrip (s : String) : String :=
  String.mk (stripChars s.toList)

/-- Python `str.lower()` (ASCII-adequate for the inputs in this development). -/
def pyLower (s : String) : String :=
  String.mk (s.toList.map Char.toLower)

/-- Whether the first list is a prefix of the second (Boolean). -/
def listStartsWith : List Char → List Char → Bool
  | [], _ => true
  | _ :: _, [] => false
  | a :: as, b :: bs => a = b && listStartsWith as bs

/-- Whether the first list occurs contiguously inside the second (Boolean). -/
def listOccursIn (needle : List Char) : List Char → Bool
  | [] => needle.isEmpty
  | b :: bs => listStartsWith needle (b :: bs) || listOccursIn needle bs

/-- Python `needle in hay` substring test. -/
def pyContains (hay needle : String) : Bool :=
  listOccursIn needle.toList hay.toList

/-- Python `sep.join(parts)`. -/
def pyJoin (sep : String) (parts : List String) : String :=
  String.mk (List.intercalate sep.toList (parts.map String.toList))

/-- Split a character list on a separator character (Python `str.split(sep)`). -/
def splitOnChar (sep : Char) (l : List Char) : List (List Char) :=
  l.foldr
    (fun c acc =>
      match acc with
      | [] => [[c]]
      | cur :: rest => if c = sep then [] :: cur :: rest else (c :: cur) :: rest)
    [[]]

/-- Python `str.split(sep)` for a one-character separator. -/
def pySplit (s : String) (sep : Char) : List String :=
  (splitOnChar sep s.toList).map String.mk

/-- Python truthiness of a string: non-empty. -/
def pyTruthy (s : String) : Bool := s ≠ ""

/--
Metadata dictionary attached to a chunk.  The Python source uses an open
`dict`; this development models it as a record of the keys the source
reads or writes, each `Option`-valued so that an absent key is `none`
(Python `dict.get` defaults are applied at each use site, mirroring the
source).
-/
structure Meta where
  filename : Option String := none
  docType : Option String := none
  regulatoryType : Option String := none
  sourceLocation : Option String := none
  pageNumber : Option Nat := none
  totalPages : Option Nat := none
  sheetName : Option String := none
  maxRow : Option Nat := none
  maxColumn : Option Nat := none
  totalRows : Option Nat := none
  columns : List String := []
  columnCount : Option Nat := none
  parsingStatus : Option String := none
  chunkIndex : Option Nat := none
  uploadTime : Option String := none
  source : Option String := none
  isOriginal : Option Bool := none
deriving Repr, DecidableEq

/--
`ProcessedDocument` from `multi_document_processor.py`: a processed
document chunk with regulatory metadata.  The dataclass `__post_init__`
strips the content; `ProcessedDocument.make` applies it.
-/
structure ProcessedDocument where
  content : String
  metadata : Meta
  docType : String
  sourceLocation : String
deriving Repr, DecidableEq

/-- Constructor applying the `__post_init__` strip of the dataclass. -/
def ProcessedDocument.make (content : String) (metadata : Meta)
    (docType : String) (sourceLocation : String) : ProcessedDocument :=
  ⟨pyStrip content, metadata, docType, sourceLocation⟩

/-! ## PDF ingestion (`pdf_utils.py` and `multi_document_processor.py`) -/

/--
`PDFFileLoader._extract_page_text` composed over all pages, i.e.
`PDFFileLoader.load_documents`: the extracted text of each page is
stripped and only non-empty pages are kept (blank pages are dropped
*here*, before any page numbering happens).  The pypdf page texts are
the input list.
-/
def pdfLoadDocuments (pageTexts : List String) : List String :=
  pageTexts.filterMap (fun text =>
    if pyTruthy (pyStrip text) then some (pyStrip text) else none)

/--
`MultiDocumentProcessor._process_pdf`: enumerate the documents returned
by `PDFFileLoader.load_documents` and build one chunk per (already
filtered) entry, with `page_number = enumerate index + 1` and
`total_pages = len(documents)`.
-/
def processPdf (pageTexts : List String) (filename : String) : List ProcessedDocument :=
  let documents := pdfLoadDocuments pageTexts
  (documents.enum).filterMap (fun (pageNum, content) =>
    if pyTruthy (pyStrip content) then
      some (ProcessedDocument.make content
        { filename := some filename
          pageNumber := some (pageNum + 1)
          docType := some "pdf"
          totalPages := some documents.length
          regulatoryType := some "basel_document" }
        "pdf"
        ("Page " ++ toString (pageNum + 1)))
    else none)

/-! ## Excel ingestion (`multi_document_processor.py`) -/

/--
An openpyxl worksheet as observed by `_excel_to_markdown_openpyxl`:
`maxRow`/`maxCol` are `worksheet.max_row`/`max_column` (with the
source's `or 0` already available through `Nat`), and `cells` holds
`str(cell.value)` for each populated cell (`none` for an empty cell),
row-major and 0-indexed.
-/
structure Worksheet where
  name : String
  maxRow : Nat
  maxCol : Nat
  cells : List (List (Option String))
deriving Repr, DecidableEq

/-- `worksheet.cell(row=r, column=c).value` rendered as in the source:
`str(cell.value) if cell.value is not None else ""` (1-indexed). -/
def Worksheet.cellText (ws : Worksheet) (row col : Nat) : String :=
  ((ws.cells.getD (row - 1) []).getD (col - 1) none).getD ""

/-- A workbook is its ordered sheet list (`workbook.sheetnames` iteration). -/
structure Workbook where
  sheets : List Worksheet
deriving Repr, DecidableEq

/-- Python `str.replace(old, new)` for a one-character `old`. -/
def pyReplaceChar (s : String) (c : Char) (repl : String) : String :=
  String.mk (s.toList.flatMap (fun x => if x = c then repl.toList else [x]))

/-- The per-cell normalisation in `_excel_to_markdown_openpyxl`:
`value.replace("|", "\\|").replace("\n", " ").strip()`. -/
def excelCellValue (ws : Worksheet) (row col : Nat) : String :=
  pyStrip (pyReplaceChar (pyReplaceChar (ws.cellText row col) '|' "\\|") '\n' " ")

/-- `range(1, n + 1)` as a list. -/
def range1 (n : Nat) : List Nat := (List.range n).map (· + 1)

/-- `MultiDocumentProcessor._excel_to_markdown_openpyxl`. -/
def excelToMarkdownOpenpyxl (ws : Worksheet) (sheetName : String) : String :=
  let maxRow := min ws.maxRow 50
  let maxCol := min ws.maxCol 10
  if maxRow = 0 ∨ maxCol = 0 then
    "# Sheet: " ++ sheetName ++ "\n\n*Empty sheet*"
  else
    let rows : List (List String) :=
      (range1 maxRow).map (fun r => (range1 maxCol).map (fun c => excelCellValue ws r c))
    let content : List String :=
      match rows with
      | [] => ["# Regulatory Template: " ++ sheetName ++ "\n"]
      | r0 :: rest =>
        ["# Regulatory Template: " ++ sheetName ++ "\n"]
          ++ ["| " ++ pyJoin " | " r0 ++ " |"]
          ++ ["|" ++ pyJoin "|" (r0.map (fun _ => " --- ")) ++ "|"]
          ++ rest.map (fun row => "| " ++ pyJoin " | " row ++ " |")
    pyJoin "\n" content

/-- `MultiDocumentProcessor._detect_excel_type`. -/
def detectExcelType (filename : String) (sheetNames : List String) : String :=
  let filenameLower := pyLower filename
  let sheetNamesStr := pyLower (pyJoin " " sheetNames)
  if ["corep", "capital", "own funds"].any (fun t => pyContains filenameLower t) then
    "corep_template"
  else if ["finrep", "financial", "ifrs"].any (fun t => pyContains filenameLower t) then
    "finrep_template"
  else if ["mapping", "lineage", "source"].any (fun t => pyContains filenameLower t) then
    "data_mapping"
  else if ["corep", "capital"].any (fun t => pyContains sheetNamesStr t) then
    "corep_template"
  else if ["finrep", "financial"].any (fun t => pyContains sheetNamesStr t) then
    "finrep_template"
  else
    "regulatory_template"

/--
`MultiDocumentProcessor._process_xlsx`: iterate the sheets, render each
with `_excel_to_markdown_openpyxl`, and emit a chunk whenever the
rendered content is non-blank after `strip()`.
-/
def processXlsx (wb : Workbook) (filename : String) : List ProcessedDocument :=
  let regulatoryType := detectExcelType filename (wb.sheets.map Worksheet.name)
  wb.sheets.filterMap (fun ws =>
    let sheetContent := excelToMarkdownOpenpyxl ws ws.name
    if pyTruthy (pyStrip sheetContent) then
      some (ProcessedDocument.make sheetContent
        { filename := some filename
          sheetName := some ws.name
          docType := some "excel"
          regulatoryType := some regulatoryType
          maxRow := some ws.maxRow
          maxColumn := some ws.maxCol }
        "excel"
        ("Sheet: " ++ ws.name))
    else none)

/-! ## CSV ingestion, pandas path (`multi_document_processor.py`) -/

/--
A parsed pandas `DataFrame` as observed by `_process_csv`: the column
names and the data rows (cells rendered as strings).  Parsing itself
(`pd.read_csv` with its encoding/quote-char retry loop) is an external
library call; its outcome is passed in as `Option DataFrame` (`none`
models the case in which every parse attempt failed).
-/
structure DataFrame where
  columns : List String
  rows : List (List String)
deriving Repr, DecidableEq

/-- `MultiDocumentProcessor._detect_csv_type`. -/
def detectCsvType (filename : String) (columns : List String) : String :=
  let filenameLower := pyLower filename
  let columnsStr := pyLower (pyJoin " " columns)
  if ["jira", "issue", "ticket"].any (fun t => pyContains filenameLower t) then
    "jira_export"
  else if ["issue", "key", "status", "assignee"].any (fun t => pyContains columnsStr t) then
    "jira_export"
  else if ["mapping", "lineage", "source"].any (fun t => pyContains filenameLower t) then
    "data_mapping"
  else
    "regulatory_data"

/--
Modelled from the spec: `pandas.DataFrame.to_string` (an external
library renderer) is modelled as a plain text table — a header line of
the column names followed by one line per row, each prefixed by its
index, cells separated by single spaces.  Only containment of columns
and rows in the output matters to the claims.
-/
def dfToString (df : DataFrame) : String :=
  pyJoin "\n"
    (pyJoin " " df.columns ::
      (df.rows.enum.map (fun (i, row) => toString i ++ " " ++ pyJoin " " row)))

/-- `DataFrame.head()`: the first five rows. -/
def DataFrame.head (df : DataFrame) : DataFrame :=
  ⟨df.columns, df.rows.take 5⟩

/-- `MultiDocumentProcessor._create_csv_summary`. -/
def createCsvSummary (df : DataFrame) (filename csvType : String) : String :=
  pyJoin "\n"
    (["# Regulatory CSV: " ++ filename ++ "\n",
      "**Type:** " ++ csvType,
      "**Total Rows:** " ++ toString df.rows.length,
      "**Total Columns:** " ++ toString df.columns.length ++ "\n",
      "## Columns:"]
      ++ df.columns.map (fun col => "- " ++ col)
      ++ ["\n## Sample Data:", dfToString df.head])

/--
`MultiDocumentProcessor._process_csv`.  `parsed` is the outcome of the
pandas parse retry loop; `raw` is the file content used by the
raw-preview fallback when every parse attempt failed.
-/
def processCsv (parsed : Option DataFrame) (raw : String) (filename : String) :
    List ProcessedDocument :=
  match parsed with
  | none =>
    let preview := String.mk (raw.toList.take 2000)
    let truncNote := if raw.toList.length > 2000 then "\n... (truncated)" else ""
    let summaryContent :=
      "# Regulatory CSV: " ++ filename ++ "\n\n"
        ++ "**Note:** File had parsing issues, showing raw preview\n\n"
        ++ "## File Preview:\n" ++ "```\n" ++ preview ++ truncNote ++ "\n```"
    [ProcessedDocument.make summaryContent
      { filename := some filename
        docType := some "csv"
        regulatoryType := some "unknown"
        columns := []
        columnCount := some 0
        parsingStatus := some "failed" }
      "csv"
      "CSV Raw Content (parsing failed)"]
  | some df =>
    let csvType := detectCsvType filename df.columns
    let summaryContent := createCsvSummary df filename csvType
    [ProcessedDocument.make summaryContent
      { filename := some filename
        docType := some "csv"
        regulatoryType := some csvType
        totalRows := some df.rows.length
        columns := df.columns
        columnCount := some df.columns.length
        parsingStatus := some "success" }
      "csv"
      ("CSV Summary (" ++ toString df.rows.length ++ " rows)")]

/-! ## CSV ingestion, `CSVProcessor` path (`file_utils.py`) -/

/--
One parsed `csv.DictReader` row turned into the text block built by
`CSVProcessor.load_documents`: `"{key}: {value}"` for each pair whose
value is truthy, joined by newlines.
-/
def csvRowText (header : List String) (cells : List String) : String :=
  pyJoin "\n"
    ((header.zip cells).filterMap (fun (k, v) =>
      if pyTruthy v then some (k ++ ": " ++ v) else none))

/--
`CSVProcessor.load_documents` from `file_utils.py`.

The function reads a 1024-character sample, runs `csv.Sniffer().sniff`
on it to detect the delimiter, and parses with `csv.DictReader`.  The
sniffer is an external library call modelled by the `sniff` argument
(`none` models `csv.Error` being raised).  There is **no** `try` around
the sniff inside the method body: a sniffing failure propagates to the
outer `except Exception`, which logs and re-raises — modelled as
`Except.error`.  The `DictReader` itself is modelled for plain inputs:
the first line is the header, each further line is split on the
detected delimiter and zipped with the header.  Rows accumulate through
a batch buffer of size 100 exactly as in the source (the buffer only
groups appends and preserves order).
-/
def csvLoadDocuments (sniff : String → Option Char) (content : String) :
    Except String (List String) :=
  let sample := String.mk (content.toList.take 1024)
  match sniff sample with
  | none => Except.error "csv.Error: Could not determine delimiter"
  | some delimiter =>
    let lines := pySplit content '\n'
    match lines with
    | [] => Except.ok []
    | headerLine :: dataLines =>
      let header := pySplit headerLine delimiter
      let parsedRows := (dataLines.filter pyTruthy).map (fun line => pySplit line delimiter)
      let step : List String × List String → Nat × List String →
          List String × List String :=
        fun (documents, batch) (i, cells) =>
          let rowText := csvRowText header cells
          let batch' :=
            if pyTruthy (pyStrip rowText) then
              batch ++ ["Row " ++ toString (i + 1) ++ ":\n" ++ rowText]
            else batch
          if batch'.length ≥ 100 then (documents ++ batch', []) else (documents, batch')
      let (documents, batch) := parsedRows.enum.foldl step ([], [])
      Except.ok (if batch ≠ [] then documents ++ batch else documents)

/-! ## RAG pipeline search (`rag_pipeline.py`) -/

/--
A formatted search result as built by `RAGPipeline.search_documents`:
`{"text": ..., "score": ...}` plus `"metadata"` when available.  Cosine
scores are modelled in `ℚ`.
-/
structure SearchResult where
  text : String
  score : ℚ
  metadata : Option Meta
deriving Repr, DecidableEq

/--
`RAGPipeline.search_documents`.  The body embeds the query and calls
`vector_db.search`, both external, fallible operations: their combined
outcome is the `base` argument (`Except.error` when either raises).
The enclosing `try`/`except` returns `[]` on any exception; otherwise
each `(key, score)` pair is formatted, attaching
`vector_db.get_metadata(key)` (the `getMeta` argument) when
`return_metadata` is set and metadata is truthy.
-/
def searchDocuments (base : Except String (List (String × ℚ)))
    (getMeta : String → Option Meta) (returnMetadata : Bool) : List SearchResult :=
  match base with
  | Except.error _ => []
  | Except.ok results =>
    results.map (fun (key, score) =>
      { text := key
        score := score
        metadata := if returnMetadata then getMeta key else none })

/-- `RAGPipeline.format_context`: build the context block and the metadata line. -/
def formatContext (results : List SearchResult) : String × String :=
  if results = [] then ("", "")
  else
    let parts := results.enum.filterMap (fun (i, result) =>
      let content := pyStrip result.text
      if pyTruthy content then
        let md := result.metadata.getD {}
        let filename := md.filename.getD ("Document " ++ toString (i + 1))
        let metadataInfo := "Source: " ++ filename ++ ", Relevance: " ++ toString result.score
        let metadataInfo :=
          match md.chunkIndex with
          | some ci => metadataInfo ++ ", Chunk: " ++ toString ci
          | none => metadataInfo
        some ("[Source: " ++ filename ++ "]\n" ++ content, metadataInfo)
      else none)
    (pyJoin "\n\n---\n\n" (parts.map Prod.fst), pyJoin " | " (parts.map Prod.snd))

/-- The canned response returned by `RAGPipeline.run` when the search
yields no results (abridged to its title line plus body marker; its
identity, not its full text, is what the claims compare). -/
def noRelevantInfoResponse : String :=
  "# 📚 No Relevant Information Found\n\nI wasn't able to find any information about your question in the current knowledge base."

/-- The canned error paragraph from `RAGPipeline.run`'s own
`except Exception` branch. -/
def systemIssueResponse : String :=
  "# 🔧 System Issue Encountered\n\nI experienced a technical issue while processing your question."

/-- The result dictionary of `RAGPipeline.run`. -/
structure RunResult where
  response : String
  sources : List String
  metadata : String
  searchResults : List SearchResult
deriving Repr, DecidableEq

/--
`RAGPipeline.run`: search, and either return the canned
no-relevant-information response (empty search) or format the context
and generate (the LLM call is the `gen` argument; `set()`
de-duplication of sources is modelled as order-preserving
de-duplication).  `search_documents` never raises — its own
`try`/`except` returns `[]` — so the only fallible steps reaching
`run`'s `except` branch would be formatting/generation, which are total
here; the error branch is therefore unreachable in the model, exactly
as search failures cannot reach it in the source.
-/
def ragRun (base : Except String (List (String × ℚ)))
    (getMeta : String → Option Meta)
    (gen : String → String → String → String)
    (query : String) : RunResult :=
  let searchResults := searchDocuments base getMeta true
  if searchResults = [] then
    { response := noRelevantInfoResponse
      sources := []
      metadata := "No relevant documents found"
      searchResults := [] }
  else
    let (context, metadataInfo) := formatContext searchResults
    let response := gen query context metadataInfo
    let sources := (searchResults.filterMap (fun r =>
      (r.metadata.getD {}).filename)).dedup
    { response := response
      sources := sources
      metadata := metadataInfo
      searchResults := searchResults }

/-! ## Regulatory enhancer (`regulatory_rag_enhancer.py`) -/

/-- The `regulatory_keywords` list of `_calculate_regulatory_relevance`. -/
def regulatoryKeywords : List String :=
  ["basel", "corep", "finrep", "capital", "liquidity", "lcr", "nsfr",
   "cet1", "tier 1", "total capital", "risk weight", "exposure",
   "regulatory", "compliance", "reporting", "calculation", "template"]

/-- One iteration of the keyword loop of
`_calculate_regulatory_relevance`: `+0.1` for a keyword hit in the
content, `+0.2` for a hit in the query. -/
def keywordStep (content queryLower : String) (score : ℚ) (keyword : String) : ℚ :=
  let score := if pyContains content keyword then score + 0.1 else score
  if pyContains queryLower keyword then score + 0.2 else score

/-- `RegulatoryRAGEnhancer._calculate_regulatory_relevance`. -/
def calculateRegulatoryRelevance (result : SearchResult) (query : String) : ℚ :=
  let content := pyLower result.text
  let md := result.metadata.getD {}
  let queryLower := pyLower query
  let score : ℚ := regulatoryKeywords.foldl (keywordStep content queryLower) 0
  let docType := md.docType.getD ""
  let regulatoryType := md.regulatoryType.getD ""
  let score :=
    if regulatoryType ∈ ["corep_template", "finrep_template", "basel_document"] then
      score + 0.3
    else if regulatoryType ∈ ["regulatory_calculation", "data_lineage"] then
      score + 0.2
    else score
  let score :=
    if docType = "excel" then
      let sheetName := pyLower (md.sheetName.getD "")
      if ["corep", "finrep", "capital", "liquidity"].any (fun t => pyContains sheetName t)
      then score + 0.2 else score
    else score
  min score 1

/-- A search result carrying the added `regulatory_score` key. -/
structure EnhancedResult where
  text : String
  score : ℚ
  metadata : Option Meta
  regulatoryScore : ℚ
deriving Repr, DecidableEq

/-- The combined sort key of `enhanced_search`:
`score * 0.7 + regulatory_score * 0.3`. -/
def combinedKey (r : EnhancedResult) : ℚ :=
  r.score * 0.7 + r.regulatoryScore * 0.3

/-- Insert into a descending-sorted list after every earlier element of
strictly greater key, keeping original order among equal keys. -/
def insertDesc (key : EnhancedResult → ℚ) (x : EnhancedResult) :
    List EnhancedResult → List EnhancedResult
  | [] => [x]
  | y :: ys => if key x < key y then y :: insertDesc key x ys else x :: y :: ys

/-- Python `list.sort(key=..., reverse=True)`: stable descending sort. -/
def sortByKeyDesc (key : EnhancedResult → ℚ) (l : List EnhancedResult) :
    List EnhancedResult :=
  l.foldr (insertDesc key) []

/--
The body of the `for result in base_results` loop of `enhanced_search`:
add the regulatory score, `continue` past results rejected by the
`doc_types` whitelist (Python truthiness: a `None`/empty whitelist
disables the filter), and boost `score` by `1.5` when any
`priority_sources` token occurs in the lower-cased filename.
-/
def enhanceLoop (query : String) (docTypes prioritySources : List String) :
    List SearchResult → List EnhancedResult
  | [] => []
  | result :: rest =>
    let regScore := calculateRegulatoryRelevance result query
    let docType := (result.metadata.getD {}).docType.getD "unknown"
    if docTypes ≠ [] ∧ docType ∉ docTypes then
      enhanceLoop query docTypes prioritySources rest
    else
      let filename := (result.metadata.getD {}).filename.getD ""
      let score :=
        if prioritySources ≠ [] ∧
            prioritySources.any (fun priority => pyContains (pyLower filename) priority)
        then result.score * 1.5
        else result.score
      ⟨result.text, score, result.metadata, regScore⟩ ::
        enhanceLoop query docTypes prioritySources rest

/--
`RegulatoryRAGEnhancer.enhanced_search`: fetch `k * 2` results from the
base pipeline's `search_documents` (the `search` argument), enhance
them, sort by `0.7·score + 0.3·regulatory_score` descending, and return
the first `k`.
-/
def enhancedSearch (search : String → Nat → List SearchResult)
    (query : String) (k : Nat) (docTypes prioritySources : List String) :
    List EnhancedResult :=
  let baseResults := search query (k * 2)
  let enhancedResults := enhanceLoop query docTypes prioritySources baseResults
  (sortByKeyDesc combinedKey enhancedResults).take k

/--
The claim's description of `enhanced_search` (over-fetch `2k`, score,
boost, combine `0.7·cosine + 0.3·regulatory_score`, sort descending,
take `k`), written as a direct map-sort-take pipeline for comparison
with the implementation (the claim states no `doc_types` filtering, so
none appears here).
-/
def enhancedSearchDescribed (search : String → Nat → List SearchResult)
    (query : String) (k : Nat) (prioritySources : List String) :
    List EnhancedResult :=
  let scored := (search query (k * 2)).map (fun result =>
    let boosted :=
      if prioritySources ≠ [] ∧
          prioritySources.any (fun priority =>
            pyContains (pyLower ((result.metadata.getD {}).filename.getD "")) priority)
      then result.score * 1.5
      else result.score
    (⟨result.text, boosted, result.metadata,
      calculateRegulatoryRelevance result query⟩ : EnhancedResult))
  (sortByKeyDesc combinedKey scored).take k

/-! ## Global knowledge-base service (`api/services/global_kb_service.py`)

`VectorDatabase` (`aimakerspace/vectordatabase.py`) is imported by the
service but its source file is not part of the repository snapshot;
only its callers are.  Its operations are therefore modelled from the
spec, while the service logic that manipulates `vector_db.vectors` and
`vector_db.metadata` directly is embedded from the service source. -/

/-- An embedding vector. -/
abbrev Vec := List ℚ

/--
Modelled from the spec: `VectorDatabase` (its source file
`aimakerspace/vectordatabase.py` is missing from the snapshot) stores
`text → (vector, metadata)`; Python `dict`s preserve insertion order
and overwrite in place, modelled by association lists.
-/
structure VectorDB where
  vectors : List (String × Vec)
  metadataMap : List (String × Meta)
deriving Repr, DecidableEq

/-- Modelled from the spec: `VectorDatabase.insert(text, vector, metadata)` —
"if `text` already present, overwrite both vector and metadata"
(in-place, keeping the dict position of an existing key). -/
def VectorDB.insert (db : VectorDB) (text : String) (v : Vec) (m : Meta) : VectorDB :=
  if (db.vectors.map Prod.fst).contains text then
    { vectors := db.vectors.map (fun p => if p.1 = text then (text, v) else p)
      metadataMap := db.metadataMap.map (fun p => if p.1 = text then (text, m) else p) }
  else
    { vectors := db.vectors ++ [(text, v)]
      metadataMap := db.metadataMap ++ [(text, m)] }

/-- Modelled from the spec: `VectorDatabase.get_metadata(text) -> metadata | none`. -/
def VectorDB.getMetadata (db : VectorDB) (text : String) : Option Meta :=
  (db.metadataMap.find? (fun p => p.1 = text)).map Prod.snd

/-- A `{"text": ..., "metadata": ...}` entry of `chunked_documents`. -/
structure Chunk where
  text : String
  metadata : Meta
deriving Repr, DecidableEq

/--
The mutable state of `GlobalKnowledgeBaseService.global_knowledge_base`
(the fields the embedded operations read or write; the cached pipeline
objects are rebuilt from these on every `get_global_knowledge_base`
call and carry no independent state).
-/
structure KBState where
  initialized : Bool
  documents : List String
  userUploaded : List String
  chunkedDocuments : List Chunk
deriving Repr, DecidableEq

/--
The index materialisation inside `get_global_knowledge_base`: embed
every chunk text (the external embedding model is the `embed` argument)
and insert each `(text, vector, metadata)` into a fresh
`VectorDatabase`.
-/
def buildVectorDb (embed : String → Vec) (chunks : List Chunk) : VectorDB :=
  chunks.foldl (fun db chunk => db.insert chunk.text (embed chunk.text) chunk.metadata)
    ⟨[], []⟩

/--
`GlobalKnowledgeBaseService.get_global_knowledge_base`: `None` when the
KB is not initialized or `chunked_documents` is empty, otherwise the
freshly built vector database.
-/
def getGlobalKB (embed : String → Vec) (s : KBState) : Option VectorDB :=
  if s.initialized = false then none
  else if s.chunkedDocuments = [] then none
  else some (buildVectorDb embed s.chunkedDocuments)

/--
The per-chunk body of `add_document_to_global_kb`'s loop: embed the
chunk content (`embedChunk`, a fallible external call — one call per
chunk), build the updated metadata, insert, and record the chunk; the
`except ... continue` skips a chunk whose embedding raised.  Returns
the updated `(vector_db, new_chunks)` accumulator.
-/
def addChunkStep (embedChunk : String → Except String Vec)
    (filename uploadTime : String)
    (acc : VectorDB × List Chunk) (entry : Nat × ProcessedDocument) :
    VectorDB × List Chunk :=
  let (db, newChunks) := acc
  let (i, doc) := entry
  match embedChunk doc.content with
  | Except.error _ => (db, newChunks)
  | Except.ok v =>
    let metadata := { doc.metadata with
      filename := some filename
      chunkIndex := some i
      uploadTime := some uploadTime
      source := some "user_uploaded"
      isOriginal := some false }
    (db.insert doc.content v metadata, newChunks ++ [⟨doc.content, metadata⟩])

/--
`GlobalKnowledgeBaseService.add_document_to_global_kb`.  Returns the
Python `bool` result, the updated service state, and the resulting
vector database (`none` on the early-return failure paths).  The
physical-file persistence block only touches the filesystem and is
omitted; `embed` stands for the embedding model used by
`get_global_knowledge_base`, `embedChunk` for the per-chunk
`async_get_embeddings([doc.content])` calls.
-/
def addDocument (embed : String → Vec) (embedChunk : String → Except String Vec)
    (s : KBState) (processedDocs : List ProcessedDocument)
    (filename uploadTime : String) : Bool × KBState × Option VectorDB :=
  if s.initialized = false then (false, s, none)
  else
    match getGlobalKB embed s with
    | none => (false, s, none)
    | some db =>
      let (db', newChunks) :=
        processedDocs.enum.foldl (addChunkStep embedChunk filename uploadTime) (db, [])
      let userUploaded' :=
        if filename ∈ s.userUploaded then s.userUploaded
        else s.userUploaded ++ [filename]
      (true,
       { s with
          chunkedDocuments := s.chunkedDocuments ++ newChunks
          userUploaded := userUploaded' },
       some db')

/-- Python `list.remove(x)`: drop the first occurrence. -/
def removeFirst (x : String) : List String → List String
  | [] => []
  | y :: ys => if y = x then ys else y :: removeFirst x ys

/-- The keep test of `remove_document_from_global_kb`'s rebuild loop:
`if metadata and metadata.get("filename") != filename` — an entry is
kept only when its metadata is present (truthy) and names a different
file. -/
def keepEntry (db : VectorDB) (filename text : String) : Bool :=
  match db.getMetadata text with
  | some m => m.filename.getD "" ≠ filename
  | none => false

/--
`GlobalKnowledgeBaseService.remove_document_from_global_kb`.  Fails
(returning `False` and leaving all state untouched) when the KB is not
initialized or `filename` is not in `user_uploaded_documents`;
otherwise rebuilds `vector_db.vectors`/`metadata` keeping only entries
whose metadata names a different file, filters `chunked_documents`, and
removes the filename from `user_uploaded_documents`.  The physical-file
deletion block only touches the filesystem and is omitted.
-/
def removeDocument (embed : String → Vec) (s : KBState) (filename : String) :
    Bool × KBState × Option VectorDB :=
  if s.initialized = false then (false, s, none)
  else if filename ∉ s.userUploaded then (false, s, none)
  else
    match getGlobalKB embed s with
    | none => (false, s, none)
    | some db =>
      let db' : VectorDB :=
        { vectors := db.vectors.filter (fun p => keepEntry db filename p.1)
          metadataMap := db.metadataMap.filter (fun p => keepEntry db filename p.1) }
      (true,
       { s with
          chunkedDocuments := s.chunkedDocuments.filter
            (fun chunk => chunk.metadata.filename.getD "" ≠ filename)
          userUploaded := removeFirst filename s.userUploaded },
       some db')

/-- The metadata written by `add_document_to_global_kb` for the `i`-th
uploaded chunk. -/
def uploadedMeta (filename uploadTime : String) (i : Nat) (doc : ProcessedDocument) : Meta :=
  { doc.metadata with
    filename := some filename
    chunkIndex := some i
    uploadTime := some uploadTime
    source := some "user_uploaded"
    isOriginal := some false }

/-- The chunks a call to `add_document_to_global_kb` appends to
`chunked_documents`: exactly the uploaded chunks whose per-chunk
embedding call succeeded, in upload order, with the uploaded metadata. -/
def successfulChunks (embedChunk : String → Except String Vec)
    (filename uploadTime : String) (processedDocs : List ProcessedDocument) : List Chunk :=
  processedDocs.enum.filterMap (fun (i, doc) =>
    match embedChunk doc.content with
    | Except.error _ => none
    | Except.ok _ => some ⟨doc.content, uploadedMeta filename uploadTime i doc⟩)

/-- The vector database a call to `add_document_to_global_kb` leaves
behind: the pre-existing database with the successfully embedded chunks
inserted one at a time, failures skipped. -/
def insertSuccessful (embedChunk : String → Except String Vec)
    (filename uploadTime : String) (db : VectorDB)
    (processedDocs : List ProcessedDocument) : VectorDB :=
  processedDocs.enum.foldl (fun db (i, doc) =>
    match embedChunk doc.content with
    | Except.error _ => db
    | Except.ok v => db.insert doc.content v (uploadedMeta filename uploadTime i doc)) db

/-- The (optional) filename recorded for an index entry. -/
def entryFilename (db : VectorDB) (text : String) : Option String :=
  (db.getMetadata text).map (fun m => m.filename.getD "")

/-! ## Concrete fixtures used by the claims -/

/-- A non-Basel search result with cosine score 0.80. -/
def otherChunk : SearchResult :=
  { text := "alpha"
    score := 0.8
    metadata := some { filename := some "market_risk_overview.pdf", docType := some "pdf" } }

/-- A Basel-named search result with cosine score 0.60. -/
def baselChunk : SearchResult :=
  { text := "beta"
    score := 0.6
    metadata := some { filename := some "basel_iii_minimum_requirements.pdf", docType := some "pdf" } }

/-- A base search returning the two fixture chunks, non-Basel first. -/
def c1Search : String → Nat → List SearchResult := fun _ _ => [otherChunk, baselChunk]

/-- The empty sheet `"Sheet1"` of the `corep.xlsx` scenario. -/
def sheet1Empty : Worksheet := { name := "Sheet1", maxRow := 0, maxCol := 0, cells := [] }

/-- The 5×3 sheet `"C_01"` of the `corep.xlsx` scenario. -/
def sheetC01 : Worksheet :=
  { name := "C_01", maxRow := 5, maxCol := 3,
    cells := [[some "a", some "b", some "c"],
              [some "1", some "2", some "3"],
              [some "4", some "5", some "6"],
              [some "7", some "8", some "9"],
              [some "x", some "y", some "z"]] }

/-- The two-sheet `corep.xlsx` workbook of the spec scenario. -/
def corepWb : Workbook := { sheets := [sheet1Empty, sheetC01] }

/-- The parsed CSV of the spec scenario: header
`issue,key,status,assignee` and 7 data rows. -/
def jiraDf : DataFrame :=
  { columns := ["issue", "key", "status", "assignee"],
    rows := [["i1", "K-1", "open", "ann"], ["i2", "K-2", "open", "bob"],
             ["i3", "K-3", "done", "cat"], ["i4", "K-4", "open", "dan"],
             ["i5", "K-5", "done", "eve"], ["i6", "K-6", "open", "fay"],
             ["i7", "K-7", "done", "gus"]] }

/-- A preloaded chunk of the original document `basel.pdf`. -/
def baselOriginalChunk : Chunk :=
  { text := "original basel chunk"
    metadata := { filename := some "basel.pdf", docType := some "pdf"
                  source := some "preloaded", isOriginal := some true } }

/-- A KB state whose only document is the preloaded `basel.pdf`. -/
def kbPreloadedOnly : KBState :=
  { initialized := true
    documents := ["basel.pdf"]
    userUploaded := []
    chunkedDocuments := [baselOriginalChunk] }

/-- A KB state in which `basel.pdf` is both preloaded and recorded as a
user upload (reachable because `add_document_to_global_kb` never checks
the preloaded manifest). -/
def kbCollided : KBState :=
  { kbPreloadedOnly with userUploaded := ["basel.pdf"] }

/-- A constant embedding model for the concrete KB scenarios. -/
def embedOne : String → Vec := fun _ => [1]

/-- A per-chunk embedding call that always succeeds. -/
def embedChunkOk : String → Except String Vec := fun _ => Except.ok [1]

/-- A per-chunk embedding call that raises exactly on the content
`"chunk two"` (an `EmbeddingError` on the second chunk of the upload). -/
def embedChunkFailSecond : String → Except String Vec := fun text =>
  if text = "chunk two" then Except.error "EmbeddingError" else Except.ok [1]

/-- A user-uploaded chunk of the document `notes.txt`. -/
def noteChunk : Chunk :=
  { text := "note chunk"
    metadata := { filename := some "notes.txt", docType := some "text"
                  source := some "user_uploaded", isOriginal := some false } }

/-- A KB state with the preloaded `basel.pdf` and the user upload `notes.txt`. -/
def kbWithUpload : KBState :=
  { initialized := true
    documents := ["basel.pdf"]
    userUploaded := ["notes.txt"]
    chunkedDocuments := [baselOriginalChunk, noteChunk] }

/-- First parsed chunk of the fixture upload `notes.txt`. -/
def uploadDoc1 : ProcessedDocument :=
  { content := "chunk one", metadata := { docType := some "text" }
    docType := "text", sourceLocation := "Full File" }

/-- Second parsed chunk of the fixture upload `notes.txt`. -/
def uploadDoc2 : ProcessedDocument :=
  { content := "chunk two", metadata := { docType := some "text" }
    docType := "text", sourceLocation := "Full File" }

/-! ## Helper lemmas -/

instance {ε α : Type _} [DecidableEq ε] [DecidableEq α] : DecidableEq (Except ε α) :=
  fun a b =>
    match a, b with
    | Except.ok x, Except.ok y =>
      if h : x = y then isTrue (by rw [h]) else isFalse (by intro hc; cases hc; exact h rfl)
    | Except.error x, Except.error y =>
      if h : x = y then isTrue (by rw [h]) else isFalse (by intro hc; cases hc; exact h rfl)
    | Except.ok _, Except.error _ => isFalse (by intro hc; cases hc)
    | Except.error _, Except.ok _ => isFalse (by intro hc; cases hc)

theorem mem_dropWhile_of_mem {p : Char → Bool} {a : Char} :
    ∀ {l : List Char}, a ∈ l → p a = false → a ∈ l.dropWhile p := by
  intro l
  induction l with
  | nil => intro h _; exact absurd h (List.not_mem_nil a)
  | cons b t ih =>
    intro hmem hpa
    by_cases hb : p b
    · rw [List.dropWhile_cons_of_pos hb]
      rcases List.mem_cons.mp hmem with rfl | ht
      · rw [hpa] at hb; exact absurd hb (by simp)
      · exact ih ht hpa
    · rw [List.dropWhile_cons_of_neg hb]
      exact hmem

theorem stripChars_ne_nil {l : List Char} (h : '#' ∈ l) : stripChars l ≠ [] := by
  intro hnil
  unfold stripChars at hnil
  have h1 : '#' ∈ l.dropWhile Char.isWhitespace :=
    mem_dropWhile_of_mem h (by decide)
  have h2 : '#' ∈ (l.dropWhile Char.isWhitespace).reverse := List.mem_reverse.mpr h1
  have h3 : '#' ∈ (l.dropWhile Char.isWhitespace).reverse.dropWhile Char.isWhitespace :=
    mem_dropWhile_of_mem h2 (by decide)
  rw [List.reverse_eq_nil_iff] at hnil
  rw [hnil] at h3
  exact absurd h3 (List.not_mem_nil '#')

theorem pyStrip_ne_empty {s : String} (h : '#' ∈ s.toList) : pyStrip s ≠ "" := by
  intro hs
  exact stripChars_ne_nil h (congrArg String.toList hs)

theorem hash_mem_excelToMarkdown (ws : Worksheet) (sheetName : String) :
    '#' ∈ (excelToMarkdownOpenpyxl ws sheetName).toList := by
  unfold excelToMarkdownOpenpyxl
  by_cases h : min ws.maxRow 50 = 0 ∨ min ws.maxCol 10 = 0
  · rw [if_pos h]
    show '#' ∈ (("# Sheet: " ++ sheetName ++ "\n\n*Empty sheet*").data)
    rw [String.data_append, String.data_append]
    exact List.mem_append_left _ (List.mem_append_left _ (by decide))
  · rw [if_neg h]
    rcases hrows : (range1 (min ws.maxRow 50)).map
        (fun r => (range1 (min ws.maxCol 10)).map (fun c => excelCellValue ws r c)) with
      _ | ⟨r0, rest⟩
    · show '#' ∈ (pyJoin "\n" ["# Regulatory Template: " ++ sheetName ++ "\n"]).toList
      show '#' ∈ List.intercalate "\n".toList
        [("# Regulatory Template: " ++ sheetName ++ "\n").toList]
      rw [List.intercalate]
      simp only [List.intersperse_singleton, List.flatten_cons, List.flatten_nil, List.append_nil]
      show '#' ∈ ("# Regulatory Template: " ++ sheetName ++ "\n").data
      rw [String.data_append, String.data_append]
      exact List.mem_append_left _ (List.mem_append_left _ (by decide))
    · show '#' ∈ (pyJoin "\n"
        (["# Regulatory Template: " ++ sheetName ++ "\n"]
          ++ ["| " ++ pyJoin " | " r0 ++ " |"]
          ++ ["|" ++ pyJoin "|" (r0.map (fun _ => " --- ")) ++ "|"]
          ++ rest.map (fun row => "| " ++ pyJoin " | " row ++ " |"))).toList
      show '#' ∈ List.intercalate "\n".toList
        ((["# Regulatory Template: " ++ sheetName ++ "\n"]
          ++ ["| " ++ pyJoin " | " r0 ++ " |"]
          ++ ["|" ++ pyJoin "|" (r0.map (fun _ => " --- ")) ++ "|"]
          ++ rest.map (fun row => "| " ++ pyJoin " | " row ++ " |")).map String.toList)
      rw [List.intercalate]
      simp only [List.cons_append, List.nil_append, List.map_cons,
        List.intersperse_cons_cons, List.flatten_cons]
      refine List.mem_append_left _ ?_
      show '#' ∈ ("# Regulatory Template: " ++ sheetName ++ "\n").data
      rw [String.data_append, String.data_append]
      exact List.mem_append_left _ (List.mem_append_left _ (by decide))

theorem filterMap_length_of_all_some {α β : Type _} (f : α → Option β) :
    ∀ (l : List α), (∀ a ∈ l, (f a).isSome) → (l.filterMap f).length = l.length := by
  intro l
  induction l with
  | nil => intro _; rfl
  | cons a t ih =>
    intro h
    rw [List.filterMap_cons]
    cases hfa : f a with
    | none =>
      have := h a (List.mem_cons_self a t)
      rw [hfa] at this
      exact absurd this (by simp)
    | some b =>
      simp only [List.length_cons]
      rw [ih (fun x hx => h x (List.mem_cons_of_mem a hx))]

theorem processXlsx_length (wb : Workbook) (filename : String) :
    (processXlsx wb filename).length = wb.sheets.length := by
  unfold processXlsx
  refine filterMap_length_of_all_some _ wb.sheets (fun ws _ => ?_)
  have hne : pyStrip (excelToMarkdownOpenpyxl ws ws.name) ≠ "" :=
    pyStrip_ne_empty (hash_mem_excelToMarkdown ws ws.name)
  simp [pyTruthy, ne_eq, hne]

/-! ## Claim C2 -/

/--
C2 (code bug): the claim expects one chunk per non-blank page with
`page_number` equal to the page's position in the *original* document —
for page texts `"A"`, `""`, `"B"`, entries `Page 1` and `Page 3`.  The
code drops blank pages in `PDFFileLoader.load_documents` *before*
`_process_pdf` enumerates, so the chunk extracted from physical page 3
is numbered `page_number = 2` / `"Page 2"` (and `total_pages` becomes
the non-blank count 2, not 3): no chunk carries page number 3.
-/
theorem c2_pdf_renumbers_pages_after_dropping_blanks :
    processPdf ["A", "", "B"] "basel.pdf" =
      [{ content := "A",
         metadata := { filename := some "basel.pdf", docType := some "pdf",
                       regulatoryType := some "basel_document",
                       pageNumber := some 1, totalPages := some 2 },
         docType := "pdf", sourceLocation := "Page 1" },
       { content := "B",
         metadata := { filename := some "basel.pdf", docType := some "pdf",
                       regulatoryType := some "basel_document",
                       pageNumber := some 2, totalPages := some 2 },
         docType := "pdf", sourceLocation := "Page 2" }] ∧
    ∀ c ∈ processPdf ["A", "", "B"] "basel.pdf",
      c.metadata.pageNumber ≠ some 3 ∧ c.sourceLocation ≠ "Page 3" := by
  decide

/-! ## Claim C7 -/

/--
C7 (counterexample): the claim states Excel ingestion emits *no*
fragment for an empty sheet, so the two-sheet `corep.xlsx` (empty
`Sheet1`, 5×3 `C_01`) should produce exactly 1 entry.  The code's
renderer always returns non-blank text — for an empty sheet the
placeholder `"# Sheet: ...\n\n*Empty sheet*"` — so the `strip()` guard
in `_process_xlsx` never drops a sheet and the workbook produces 2
entries, the first being the empty-sheet placeholder.
-/
theorem c7_empty_sheet_also_emits_fragment :
    (processXlsx corepWb "corep.xlsx").length = 2 ∧
    (processXlsx corepWb "corep.xlsx").map ProcessedDocument.content =
      ["# Sheet: Sheet1\n\n*Empty sheet*",
       "# Regulatory Template: C_01\n\n| a | b | c |\n| --- | --- | --- |\n| 1 | 2 | 3 |\n| 4 | 5 | 6 |\n| 7 | 8 | 9 |\n| x | y | z |"] := by
  decide

/--
C7 (amended): Excel ingestion emits exactly one fragment per sheet —
non-empty sheets are rendered as a Markdown-style table bounded to the
first 50 rows and 10 columns, and empty sheets yield a placeholder
fragment — each with `source_location "Sheet: <name>"`; the `corep.xlsx`
scenario therefore yields 2 entries, whose `C_01` entry has
`doc_type "excel"`, `source_location "Sheet: C_01"` and
`regulatory_type "corep_template"`.
-/
theorem c7_one_fragment_per_sheet :
    (∀ (wb : Workbook) (filename : String),
        (processXlsx wb filename).length = wb.sheets.length) ∧
    (processXlsx corepWb "corep.xlsx").map
        (fun c => (c.sourceLocation, c.docType, c.metadata.regulatoryType)) =
      [("Sheet: Sheet1", "excel", some "corep_template"),
       ("Sheet: C_01", "excel", some "corep_template")] := by
  exact ⟨processXlsx_length, by decide⟩

/-! ## Claim C8 -/

set_option maxRecDepth 40000 in
/--
C8: CSV ingestion (pandas parse successful) emits exactly one summary
fragment per file, carrying the detected `regulatory_type`; for the
`issue,key,status,assignee` header with 7 data rows the single entry is
classified `jira_export` and its content contains the filename, the row
count, every column name, and each of the first five rows (and none of
rows 6–7, which `DataFrame.head()` omits).
-/
theorem c8_csv_single_summary_fragment :
    (∀ (df : DataFrame) (raw filename : String),
        (processCsv (some df) raw filename).map
          (fun c => (c.metadata.regulatoryType, c.docType)) =
        [(some (detectCsvType filename df.columns), "csv")]) ∧
    (processCsv (some jiraDf) "" "export.csv").length = 1 ∧
    (∀ c ∈ processCsv (some jiraDf) "" "export.csv",
      c.metadata.regulatoryType = some "jira_export" ∧
      c.metadata.totalRows = some 7 ∧
      pyContains c.content "export.csv" = true ∧
      pyContains c.content "**Total Rows:** 7" = true ∧
      pyContains c.content "- issue" = true ∧
      pyContains c.content "- key" = true ∧
      pyContains c.content "- status" = true ∧
      pyContains c.content "- assignee" = true ∧
      pyContains c.content "i1 K-1 open ann" = true ∧
      pyContains c.content "i2 K-2 open bob" = true ∧
      pyContains c.content "i3 K-3 done cat" = true ∧
      pyContains c.content "i4 K-4 open dan" = true ∧
      pyContains c.content "i5 K-5 done eve" = true ∧
      pyContains c.content "i6" = false ∧
      pyContains c.content "i7" = false) := by
  refine ⟨fun df raw filename => rfl, by decide, by decide⟩

/-! ## Claim C9 -/

/--
C9 (counterexample): the claim states that when delimiter autodetection
fails the parser falls back to a comma delimiter instead of failing the
ingestion.  `CSVProcessor.load_documents` has no such fallback: a
sniffing failure propagates through the method's `except Exception`
re-raise, so the very input that parses fine with a comma delimiter
fails outright when the sniffer errors.
-/
theorem c9_sniff_failure_has_no_comma_fallback :
    csvLoadDocuments (fun _ => none) "a,b\n1,2" =
      Except.error "csv.Error: Could not determine delimiter" ∧
    csvLoadDocuments (fun _ => some ',') "a,b\n1,2" =
      Except.ok ["Row 1:\na: 1\nb: 2"] := by
  exact ⟨rfl, by decide⟩

/--
C9 (amended): `CSVProcessor.load_documents` autodetects the delimiter
from the first 1024 characters via `csv.Sniffer`; when autodetection
fails the exception propagates and ingestion of that file fails — there
is no comma fallback.
-/
theorem c9_sniff_failure_aborts_ingestion
    (sniff : String → Option Char) (content : String)
    (h : sniff (String.mk (content.toList.take 1024)) = none) :
    csvLoadDocuments sniff content =
      Except.error "csv.Error: Could not determine delimiter" := by
  simp only [csvLoadDocuments, h]

/-- C9 witness: the amended theorem applied to a concrete sniffer
failure and file. -/
theorem c9_sniff_failure_aborts_ingestion_witness :
    (fun _ : String => (none : Option Char))
        (String.mk (("a,b\n1,2" : String).toList.take 1024)) = none ∧
    csvLoadDocuments (fun _ => none) "a,b\n1,2" =
      Except.error "csv.Error: Could not determine delimiter" :=
  ⟨rfl, c9_sniff_failure_aborts_ingestion (fun _ => none) "a,b\n1,2" rfl⟩

/-! ## Claim C10 -/

/--
C10: if query embedding or index search raises, `search_documents`
returns the empty list, so `run` returns the canned
"No Relevant Information Found" response with an empty sources list —
identical to the result for a query that matched nothing — and the
error-paragraph branch of `run` (the "System Issue Encountered" text)
is never taken for search failures.
-/
theorem c10_search_error_indistinguishable_from_no_match :
    (∀ (e : String) (getMeta : String → Option Meta) (returnMetadata : Bool),
        searchDocuments (Except.error e) getMeta returnMetadata = []) ∧
    (∀ (e : String) (getMeta : String → Option Meta)
        (gen : String → String → String → String) (query : String),
      ragRun (Except.error e) getMeta gen query =
        ragRun (Except.ok []) getMeta gen query ∧
      (ragRun (Except.error e) getMeta gen query).response = noRelevantInfoResponse ∧
      (ragRun (Except.error e) getMeta gen query).sources = [] ∧
      (ragRun (Except.error e) getMeta gen query).response ≠ systemIssueResponse) := by
  have hne : noRelevantInfoResponse ≠ systemIssueResponse := by decide
  exact ⟨fun e getMeta rm => rfl, fun e getMeta gen query => ⟨rfl, rfl, rfl, hne⟩⟩

/-! ## Claim C1 -/

theorem foldl_keywordStep_nonneg (content queryLower : String) :
    ∀ (l : List String) (acc : ℚ), 0 ≤ acc →
      0 ≤ l.foldl (keywordStep content queryLower) acc := by
  intro l
  induction l with
  | nil => intro acc h; exact h
  | cons kw t ih =>
    intro acc h
    rw [List.foldl_cons]
    refine ih _ ?_
    unfold keywordStep
    split_ifs <;> linarith

theorem enhanceLoop_no_docTypes (query : String) (ps : List String) :
    ∀ (l : List SearchResult),
      enhanceLoop query [] ps l = l.map (fun result =>
        { text := result.text
          score :=
            if ps ≠ [] ∧ ps.any (fun priority =>
                pyContains (pyLower ((result.metadata.getD {}).filename.getD "")) priority)
            then result.score * 1.5 else result.score
          metadata := result.metadata
          regulatoryScore := calculateRegulatoryRelevance result query }) := by
  intro l
  induction l with
  | nil => rfl
  | cons r t ih =>
    rw [List.map_cons, ← ih]
    rfl

/--
C1: `enhanced_search` requests `2k` results from the base search,
attaches to each a `regulatory_score` that always lies in `[0, 1]`,
multiplies the cosine score by `1.5` when a `priority_sources` token
occurs in the (lower-cased) filename, sorts descending by
`0.7·cosine + 0.3·regulatory_score` and returns the first `k` — stated
as equality with the claim-shaped map-sort-take pipeline
`enhancedSearchDescribed` (for the default `doc_types = None`); and for
the query `"CET1 minimum"` with `priority_sources = ["basel"]`, the
Basel-named chunk with cosine 0.60 outranks the non-Basel chunk with
cosine 0.80 (boosted 0.90; combined 0.69 vs 0.62).
-/
theorem c1_enhanced_search_over_fetch_and_rerank :
    (∀ (search : String → Nat → List SearchResult) (query : String)
        (k : Nat) (prioritySources : List String),
      enhancedSearch search query k [] prioritySources =
        enhancedSearchDescribed search query k prioritySources) ∧
    (∀ (r : SearchResult) (q : String),
      0 ≤ calculateRegulatoryRelevance r q ∧ calculateRegulatoryRelevance r q ≤ 1) ∧
    enhancedSearch c1Search "CET1 minimum" 1 [] ["basel"] =
      [{ text := "beta", score := 0.9, metadata := baselChunk.metadata,
         regulatoryScore := 0.2 }] := by
  refine ⟨?_, ?_, ?_⟩
  · intro search query k ps
    simp only [enhancedSearch, enhancedSearchDescribed]
    rw [enhanceLoop_no_docTypes]
  · intro r q
    simp only [calculateRegulatoryRelevance]
    refine ⟨le_min ?_ zero_le_one, min_le_right _ _⟩
    have h0 : (0 : ℚ) ≤
        regulatoryKeywords.foldl (keywordStep (pyLower r.text) (pyLower q)) 0 :=
      foldl_keywordStep_nonneg _ _ _ 0 le_rfl
    split_ifs <;> linarith
  · have hstep : enhancedSearch c1Search "CET1 minimum" 1 [] ["basel"] =
        (sortByKeyDesc combinedKey
          [⟨"alpha", 0.8, otherChunk.metadata, min ((0 : ℚ) + 0.2) 1⟩,
           ⟨"beta", (0.6 : ℚ) * 1.5, baselChunk.metadata, min ((0 : ℚ) + 0.2) 1⟩]).take 1 := rfl
    have hlt : combinedKey ⟨"alpha", 0.8, otherChunk.metadata, min ((0 : ℚ) + 0.2) 1⟩ <
        combinedKey ⟨"beta", (0.6 : ℚ) * 1.5, baselChunk.metadata, min ((0 : ℚ) + 0.2) 1⟩ := by
      simp only [combinedKey]
      norm_num [min_def]
    have hsort : sortByKeyDesc combinedKey
          [⟨"alpha", 0.8, otherChunk.metadata, min ((0 : ℚ) + 0.2) 1⟩,
           ⟨"beta", (0.6 : ℚ) * 1.5, baselChunk.metadata, min ((0 : ℚ) + 0.2) 1⟩] =
        if combinedKey ⟨"alpha", 0.8, otherChunk.metadata, min ((0 : ℚ) + 0.2) 1⟩ <
            combinedKey ⟨"beta", (0.6 : ℚ) * 1.5, baselChunk.metadata, min ((0 : ℚ) + 0.2) 1⟩ then
          [⟨"beta", (0.6 : ℚ) * 1.5, baselChunk.metadata, min ((0 : ℚ) + 0.2) 1⟩,
           ⟨"alpha", 0.8, otherChunk.metadata, min ((0 : ℚ) + 0.2) 1⟩]
        else
          [⟨"alpha", 0.8, otherChunk.metadata, min ((0 : ℚ) + 0.2) 1⟩,
           ⟨"beta", (0.6 : ℚ) * 1.5, baselChunk.metadata, min ((0 : ℚ) + 0.2) 1⟩] := rfl
    rw [hstep, hsort, if_pos hlt]
    simp only [List.take, EnhancedResult.mk.injEq]
    norm_num [min_def]

/-! ## Knowledge-base helper lemmas -/

theorem map_fst_overwrite {α : Type _} (l : List (String × α)) (t : String) (x : α) :
    (l.map (fun p => if p.1 = t then (t, x) else p)).map Prod.fst = l.map Prod.fst := by
  induction l with
  | nil => rfl
  | cons p rest ih =>
    by_cases h : p.1 = t
    · simp [h, ih]
    · simp [h, ih]

theorem insert_keys_eq (db : VectorDB) (t : String) (v : Vec) (m : Meta)
    (h : db.vectors.map Prod.fst = db.metadataMap.map Prod.fst) :
    (db.insert t v m).vectors.map Prod.fst = (db.insert t v m).metadataMap.map Prod.fst := by
  unfold VectorDB.insert
  split_ifs with hc
  · simp only [map_fst_overwrite, h]
  · simp only [List.map_append, List.map_cons, List.map_nil, h]

theorem insert_keys_nodup (db : VectorDB) (t : String) (v : Vec) (m : Meta)
    (h : (db.vectors.map Prod.fst).Nodup) :
    ((db.insert t v m).vectors.map Prod.fst).Nodup := by
  unfold VectorDB.insert
  split_ifs with hc
  · simpa only [map_fst_overwrite] using h
  · simp only [List.map_append, List.map_cons, List.map_nil]
    rw [List.nodup_append]
    refine ⟨h, List.nodup_singleton t, ?_⟩
    intro a ha hb
    rw [List.mem_singleton] at hb
    subst hb
    exact hc (List.elem_iff.mpr ha)

theorem buildVectorDb_inv (embed : String → Vec) (chunks : List Chunk) :
    (buildVectorDb embed chunks).vectors.map Prod.fst =
      (buildVectorDb embed chunks).metadataMap.map Prod.fst ∧
    ((buildVectorDb embed chunks).vectors.map Prod.fst).Nodup := by
  unfold buildVectorDb
  suffices h : ∀ (db : VectorDB),
      db.vectors.map Prod.fst = db.metadataMap.map Prod.fst →
      (db.vectors.map Prod.fst).Nodup →
      (chunks.foldl (fun db chunk =>
          db.insert chunk.text (embed chunk.text) chunk.metadata) db).vectors.map Prod.fst =
        (chunks.foldl (fun db chunk =>
          db.insert chunk.text (embed chunk.text) chunk.metadata) db).metadataMap.map Prod.fst ∧
      ((chunks.foldl (fun db chunk =>
          db.insert chunk.text (embed chunk.text) chunk.metadata) db).vectors.map Prod.fst).Nodup by
    exact h ⟨[], []⟩ rfl List.nodup_nil
  induction chunks with
  | nil => intro db h1 h2; exact ⟨h1, h2⟩
  | cons c rest ih =>
    intro db h1 h2
    rw [List.foldl_cons]
    exact ih _ (insert_keys_eq db _ _ _ h1) (insert_keys_nodup db _ _ _ h2)

theorem find?_eq_some_of_mem_of_nodup {α : Type _} :
    ∀ (l : List (String × α)) (t : String) (m : α),
      (l.map Prod.fst).Nodup → (t, m) ∈ l →
      l.find? (fun p => p.1 = t) = some (t, m) := by
  intro l
  induction l with
  | nil => intro t m _ hm; exact absurd hm (List.not_mem_nil _)
  | cons q rest ih =>
    intro t m hnd hm
    rw [List.map_cons, List.nodup_cons] at hnd
    rcases List.mem_cons.mp hm with rfl | hrest
    · rw [List.find?_cons_of_pos _ (by simp)]
    · have hq : q.1 ≠ t := by
        intro hqt
        exact hnd.1 (hqt ▸ List.mem_map_of_mem Prod.fst hrest)
      rw [List.find?_cons_of_neg _ (by simp [hq])]
      exact ih t m hnd.2 hrest

theorem find?_isSome_of_mem_keys {α : Type _} :
    ∀ (l : List (String × α)) (t : String),
      t ∈ l.map Prod.fst → (l.find? (fun p => p.1 = t)).isSome := by
  intro l
  induction l with
  | nil => intro t ht; exact absurd ht (List.not_mem_nil _)
  | cons q rest ih =>
    intro t ht
    by_cases hq : q.1 = t
    · rw [List.find?_cons_of_pos _ (by simp [hq])]
      rfl
    · rw [List.find?_cons_of_neg _ (by simp [hq])]
      rw [List.map_cons, List.mem_cons] at ht
      rcases ht with rfl | ht
      · exact absurd rfl hq
      · exact ih t ht

theorem addChunk_foldl (embedChunk : String → Except String Vec)
    (filename uploadTime : String) :
    ∀ (entries : List (Nat × ProcessedDocument)) (db : VectorDB) (acc : List Chunk),
      entries.foldl (addChunkStep embedChunk filename uploadTime) (db, acc) =
        (entries.foldl (fun db (e : Nat × ProcessedDocument) =>
            match embedChunk e.2.content with
            | Except.error _ => db
            | Except.ok v =>
              db.insert e.2.content v (uploadedMeta filename uploadTime e.1 e.2)) db,
         acc ++ entries.filterMap (fun (e : Nat × ProcessedDocument) =>
            match embedChunk e.2.content with
            | Except.error _ => none
            | Except.ok _ =>
              some ⟨e.2.content, uploadedMeta filename uploadTime e.1 e.2⟩)) := by
  intro entries
  induction entries with
  | nil => intro db acc; simp
  | cons e rest ih =>
    intro db acc
    rw [List.foldl_cons, List.foldl_cons, List.filterMap_cons]
    rcases e with ⟨i, doc⟩
    cases hec : embedChunk doc.content with
    | error msg =>
      have hstep : addChunkStep embedChunk filename uploadTime (db, acc) (i, doc) = (db, acc) := by
        simp only [addChunkStep, hec]
      rw [hstep, ih]
    | ok v =>
      have hstep : addChunkStep embedChunk filename uploadTime (db, acc) (i, doc) =
          (db.insert doc.content v (uploadedMeta filename uploadTime i doc),
           acc ++ [⟨doc.content, uploadedMeta filename uploadTime i doc⟩]) := by
        simp only [addChunkStep, hec]
        rfl
      rw [hstep, ih]
      simp only [hec, List.append_assoc, List.singleton_append]

theorem addDocument_spec (embed : String → Vec) (embedChunk : String → Except String Vec)
    (s : KBState) (docs : List ProcessedDocument) (f t : String)
    (h1 : s.initialized = true) (h2 : s.chunkedDocuments ≠ []) :
    addDocument embed embedChunk s docs f t =
      (true,
       { s with
          chunkedDocuments := s.chunkedDocuments ++ successfulChunks embedChunk f t docs
          userUploaded :=
            if f ∈ s.userUploaded then s.userUploaded else s.userUploaded ++ [f] },
       some (insertSuccessful embedChunk f t (buildVectorDb embed s.chunkedDocuments) docs)) := by
  unfold addDocument getGlobalKB
  rw [h1]
  simp only [Bool.true_eq_false, if_false, h2, if_neg, ite_false]
  rw [addChunk_foldl]
  rfl

theorem removeDocument_spec (embed : String → Vec) (s : KBState) (f : String)
    (h1 : s.initialized = true) (h2 : f ∈ s.userUploaded) (h3 : s.chunkedDocuments ≠ []) :
    removeDocument embed s f =
      (true,
       { s with
          chunkedDocuments :=
            s.chunkedDocuments.filter (fun c => c.metadata.filename.getD "" ≠ f)
          userUploaded := removeFirst f s.userUploaded },
       some { vectors := (buildVectorDb embed s.chunkedDocuments).vectors.filter
                (fun p => keepEntry (buildVectorDb embed s.chunkedDocuments) f p.1)
              metadataMap := (buildVectorDb embed s.chunkedDocuments).metadataMap.filter
                (fun p => keepEntry (buildVectorDb embed s.chunkedDocuments) f p.1) }) := by
  unfold removeDocument getGlobalKB
  rw [h1]
  simp only [Bool.true_eq_false, if_false, h3, if_neg, ite_false, h2, not_true_eq_false]

theorem length_filter_split {α : Type _} (q : α → Bool) :
    ∀ (l : List α), l.length = (l.filter q).length + (l.filter (fun a => !(q a))).length := by
  intro l
  induction l with
  | nil => rfl
  | cons a t ih =>
    by_cases h : q a <;> simp [List.filter_cons, h, ih] <;> omega

theorem getMetadata_of_mem_vectors (db : VectorDB)
    (hkeys : db.vectors.map Prod.fst = db.metadataMap.map Prod.fst) :
    ∀ p ∈ db.vectors, ∃ m0, db.getMetadata p.1 = some m0 := by
  intro p hp
  have hk : p.1 ∈ db.metadataMap.map Prod.fst := by
    rw [← hkeys]
    exact List.mem_map_of_mem Prod.fst hp
  have hsome := find?_isSome_of_mem_keys db.metadataMap p.1 hk
  cases hfind : db.metadataMap.find? (fun q => q.1 = p.1) with
  | none => rw [hfind] at hsome; exact absurd hsome (by simp)
  | some q =>
    refine ⟨q.2, ?_⟩
    unfold VectorDB.getMetadata
    rw [hfind]
    rfl

/-! ## Claim C6 -/

/--
C6: for a user-uploaded filename `f`, a successful `remove_document(f)`
leaves no index entry whose metadata names `f`; the number of entries
removed equals exactly the number of entries whose metadata filename
was `f` before the call; every entry of any other document survives;
every surviving manifest chunk names a different file; and exactly the
one occurrence of `f` leaves `user_uploaded_documents`.  (The index is
the one `get_global_knowledge_base` materialises from
`chunked_documents`, in which every entry carries metadata.)
-/
theorem c6_remove_deletes_exactly_matching_entries
    (embed : String → Vec) (s : KBState) (f : String)
    (h1 : s.initialized = true) (h2 : f ∈ s.userUploaded) (h3 : s.chunkedDocuments ≠ []) :
    ∃ s' db', removeDocument embed s f = (true, s', some db') ∧
      (∀ t m, db'.getMetadata t = some m → m.filename.getD "" ≠ f) ∧
      (∀ p ∈ db'.vectors,
        entryFilename (buildVectorDb embed s.chunkedDocuments) p.1 ≠ some f) ∧
      (buildVectorDb embed s.chunkedDocuments).vectors.length =
        db'.vectors.length +
          ((buildVectorDb embed s.chunkedDocuments).vectors.filter
            (fun p => entryFilename (buildVectorDb embed s.chunkedDocuments) p.1 = some f)).length ∧
      (∀ p ∈ (buildVectorDb embed s.chunkedDocuments).vectors,
        entryFilename (buildVectorDb embed s.chunkedDocuments) p.1 ≠ some f →
          p ∈ db'.vectors) ∧
      (∀ c ∈ s'.chunkedDocuments, c.metadata.filename.getD "" ≠ f) ∧
      s'.userUploaded = removeFirst f s.userUploaded := by
  have hinv := buildVectorDb_inv embed s.chunkedDocuments
  have hnodupMeta : ((buildVectorDb embed s.chunkedDocuments).metadataMap.map Prod.fst).Nodup := by
    rw [← hinv.1]; exact hinv.2
  have hmeta := getMetadata_of_mem_vectors (buildVectorDb embed s.chunkedDocuments) hinv.1
  refine ⟨_, _, removeDocument_spec embed s f h1 h2 h3, ?_, ?_, ?_, ?_, ?_, rfl⟩
  · -- (a) remaining metadata never names f
    intro t m hm
    unfold VectorDB.getMetadata at hm
    rcases Option.map_eq_some'.mp hm with ⟨q, hfind, hq2⟩
    have hpred := List.find?_some hfind
    have hqt : q.1 = t := by simpa using hpred
    have hqmem := List.mem_of_find?_eq_some hfind
    rw [List.mem_filter] at hqmem
    rcases hqmem with ⟨hqmemMeta, hkeep⟩
    have hget : (buildVectorDb embed s.chunkedDocuments).getMetadata q.1 = some q.2 := by
      unfold VectorDB.getMetadata
      rw [find?_eq_some_of_mem_of_nodup _ q.1 q.2 hnodupMeta (by
        have : q = (q.1, q.2) := rfl
        rw [← this]; exact hqmemMeta)]
      rfl
    unfold keepEntry at hkeep
    rw [hget] at hkeep
    rw [hq2] at hkeep
    simpa using hkeep
  · -- (b) kept entries never point at f
    intro p hp
    rw [List.mem_filter] at hp
    rcases hp with ⟨hpmem, hkeep⟩
    unfold keepEntry at hkeep
    unfold entryFilename
    cases hget : (buildVectorDb embed s.chunkedDocuments).getMetadata p.1 with
    | none => simp
    | some m0 =>
      rw [hget] at hkeep
      simp only [Option.map_some', ne_eq, Option.some.injEq]
      simpa using hkeep
  · -- (c) count bookkeeping
    rw [length_filter_split (fun p => keepEntry (buildVectorDb embed s.chunkedDocuments) f p.1)
      (buildVectorDb embed s.chunkedDocuments).vectors]
    congr 1
    refine congrArg List.length (List.filter_congr ?_)
    intro p hp
    rcases hmeta p hp with ⟨m0, hm0⟩
    by_cases hx : m0.filename.getD "" = f
    · simp [keepEntry, entryFilename, hm0, hx]
    · simp [keepEntry, entryFilename, hm0, hx]
  · -- (d) non-matching entries kept
    intro p hp hef
    rw [List.mem_filter]
    refine ⟨hp, ?_⟩
    rcases hmeta p hp with ⟨m0, hm0⟩
    unfold keepEntry
    rw [hm0]
    unfold entryFilename at hef
    rw [hm0] at hef
    simp only [Option.map_some', ne_eq, Option.some.injEq] at hef
    simpa using hef
  · -- (e) surviving chunks never name f
    intro c hc
    rw [List.mem_filter] at hc
    simpa using hc.2

/-- C6 witness: the theorem applied to a KB holding the preloaded
`basel.pdf` and the user upload `notes.txt`, removing `notes.txt`. -/
theorem c6_remove_deletes_exactly_matching_entries_witness :
    kbWithUpload.initialized = true ∧
    "notes.txt" ∈ kbWithUpload.userUploaded ∧
    kbWithUpload.chunkedDocuments ≠ [] ∧
    (∃ s' db', removeDocument embedOne kbWithUpload "notes.txt" = (true, s', some db') ∧
      (∀ t m, db'.getMetadata t = some m → m.filename.getD "" ≠ "notes.txt") ∧
      (∀ p ∈ db'.vectors,
        entryFilename (buildVectorDb embedOne kbWithUpload.chunkedDocuments) p.1 ≠
          some "notes.txt") ∧
      (buildVectorDb embedOne kbWithUpload.chunkedDocuments).vectors.length =
        db'.vectors.length +
          ((buildVectorDb embedOne kbWithUpload.chunkedDocuments).vectors.filter
            (fun p => entryFilename (buildVectorDb embedOne kbWithUpload.chunkedDocuments) p.1 =
              some "notes.txt")).length ∧
      (∀ p ∈ (buildVectorDb embedOne kbWithUpload.chunkedDocuments).vectors,
        entryFilename (buildVectorDb embedOne kbWithUpload.chunkedDocuments) p.1 ≠
            some "notes.txt" → p ∈ db'.vectors) ∧
      (∀ c ∈ s'.chunkedDocuments, c.metadata.filename.getD "" ≠ "notes.txt") ∧
      s'.userUploaded = removeFirst "notes.txt" kbWithUpload.userUploaded) :=
  ⟨rfl, by decide, by decide,
   c6_remove_deletes_exactly_matching_entries embedOne kbWithUpload "notes.txt"
     rfl (by decide) (by decide)⟩

/-! ## Claim C3 -/

/--
C3 (counterexample): the claim states that uploading a filename that
already exists as a preloaded document is rejected with nothing
inserted.  `add_document_to_global_kb` (and the upload route) performs
no such check: uploading `basel.pdf` into a KB whose preloaded manifest
is exactly `["basel.pdf"]` succeeds, inserts the parsed chunk, and adds
`basel.pdf` to `user_uploaded_documents`.
-/
theorem c3_upload_of_preloaded_filename_not_rejected :
    kbPreloadedOnly.documents = ["basel.pdf"] ∧
    (addDocument embedOne embedChunkOk kbPreloadedOnly [uploadDoc1]
      "basel.pdf" "2025-07-02T00:00:00").1 = true ∧
    (addDocument embedOne embedChunkOk kbPreloadedOnly [uploadDoc1]
      "basel.pdf" "2025-07-02T00:00:00").2.1.chunkedDocuments.length = 2 ∧
    (addDocument embedOne embedChunkOk kbPreloadedOnly [uploadDoc1]
      "basel.pdf" "2025-07-02T00:00:00").2.1.userUploaded = ["basel.pdf"] := by
  decide

/--
C3 (amended): `add_document` performs no check against the preloaded
manifest: for any initialized, non-empty KB and any filename `f` — in
particular one that exists as a preloaded document — the upload
succeeds, appends the chunks whose embedding succeeded (marked
`source = user_uploaded`, `is_original = false`) to the manifest, and
records `f` among `user_uploaded_documents`; preloaded entries are not
deleted (an index entry changes only if a new chunk has identical text).
-/
theorem c3_upload_ignores_preloaded_manifest
    (embed : String → Vec) (embedChunk : String → Except String Vec)
    (s : KBState) (docs : List ProcessedDocument) (f t : String)
    (h1 : s.initialized = true) (h2 : s.chunkedDocuments ≠ []) (_h3 : f ∈ s.documents) :
    (addDocument embed embedChunk s docs f t).1 = true ∧
    (addDocument embed embedChunk s docs f t).2.1.chunkedDocuments =
      s.chunkedDocuments ++ successfulChunks embedChunk f t docs ∧
    f ∈ (addDocument embed embedChunk s docs f t).2.1.userUploaded ∧
    (∀ c ∈ successfulChunks embedChunk f t docs,
      c.metadata.source = some "user_uploaded" ∧ c.metadata.isOriginal = some false) := by
  rw [addDocument_spec embed embedChunk s docs f t h1 h2]
  refine ⟨rfl, rfl, ?_, ?_⟩
  · by_cases hin : f ∈ s.userUploaded
    · simp [hin]
    · simp [hin]
  · intro c hc
    unfold successfulChunks at hc
    rcases List.mem_filterMap.mp hc with ⟨⟨i, doc⟩, hmem, heq⟩
    cases hec : embedChunk doc.content with
    | error msg => simp [hec] at heq
    | ok v =>
      simp only [hec] at heq
      cases heq
      exact ⟨rfl, rfl⟩

/-- C3 witness: the amended theorem applied to the upload of
`basel.pdf` over the preloaded-only KB. -/
theorem c3_upload_ignores_preloaded_manifest_witness :
    kbPreloadedOnly.initialized = true ∧
    kbPreloadedOnly.chunkedDocuments ≠ [] ∧
    "basel.pdf" ∈ kbPreloadedOnly.documents ∧
    ((addDocument embedOne embedChunkOk kbPreloadedOnly [uploadDoc1]
        "basel.pdf" "2025-07-02T00:00:00").1 = true ∧
      (addDocument embedOne embedChunkOk kbPreloadedOnly [uploadDoc1]
        "basel.pdf" "2025-07-02T00:00:00").2.1.chunkedDocuments =
        kbPreloadedOnly.chunkedDocuments ++
          successfulChunks embedChunkOk "basel.pdf" "2025-07-02T00:00:00" [uploadDoc1] ∧
      "basel.pdf" ∈ (addDocument embedOne embedChunkOk kbPreloadedOnly [uploadDoc1]
        "basel.pdf" "2025-07-02T00:00:00").2.1.userUploaded ∧
      (∀ c ∈ successfulChunks embedChunkOk "basel.pdf" "2025-07-02T00:00:00" [uploadDoc1],
        c.metadata.source = some "user_uploaded" ∧ c.metadata.isOriginal = some false)) :=
  ⟨rfl, by decide, by decide,
   c3_upload_ignores_preloaded_manifest embedOne embedChunkOk kbPreloadedOnly [uploadDoc1]
     "basel.pdf" "2025-07-02T00:00:00" rfl (by decide) (by decide)⟩

/-! ## Claim C4 -/

/--
C4 (counterexample): the claim states all chunk texts are embedded in
one batched call before any insertion, so an `EmbeddingError` aborts
the upload with the index unchanged.  The code embeds one chunk per
call inside the insertion loop and skips a failing chunk with
`continue`: with an embedding that fails exactly on the second chunk,
the first chunk is inserted, the second is silently dropped, and the
call still reports success.
-/
theorem c4_partial_insert_on_embedding_failure :
    embedChunkFailSecond uploadDoc2.content = Except.error "EmbeddingError" ∧
    (addDocument embedOne embedChunkFailSecond kbPreloadedOnly [uploadDoc1, uploadDoc2]
      "notes.txt" "2025-07-02T00:00:00").1 = true ∧
    (addDocument embedOne embedChunkFailSecond kbPreloadedOnly [uploadDoc1, uploadDoc2]
      "notes.txt" "2025-07-02T00:00:00").2.1.chunkedDocuments.map Chunk.text =
      ["original basel chunk", "chunk one"] := by
  decide

/--
C4 (amended): `add_document` is not atomic: embeddings are computed one
chunk at a time, each chunk is inserted immediately after its embedding
succeeds, a chunk whose embedding fails is skipped while every other
chunk stays inserted, and the call returns success regardless — for any
initialized, non-empty KB the result is exactly the state extended with
the successfully embedded chunks and the index with them inserted.
-/
theorem c4_per_chunk_embedding_skips_failures
    (embed : String → Vec) (embedChunk : String → Except String Vec)
    (s : KBState) (docs : List ProcessedDocument) (f t : String)
    (h1 : s.initialized = true) (h2 : s.chunkedDocuments ≠ []) :
    addDocument embed embedChunk s docs f t =
      (true,
       { s with
          chunkedDocuments := s.chunkedDocuments ++ successfulChunks embedChunk f t docs
          userUploaded :=
            if f ∈ s.userUploaded then s.userUploaded else s.userUploaded ++ [f] },
       some (insertSuccessful embedChunk f t (buildVectorDb embed s.chunkedDocuments) docs)) :=
  addDocument_spec embed embedChunk s docs f t h1 h2

/-- C4 witness: the amended theorem applied to the two-chunk upload
whose second embedding call fails. -/
theorem c4_per_chunk_embedding_skips_failures_witness :
    kbPreloadedOnly.initialized = true ∧
    kbPreloadedOnly.chunkedDocuments ≠ [] ∧
    addDocument embedOne embedChunkFailSecond kbPreloadedOnly [uploadDoc1, uploadDoc2]
        "notes.txt" "2025-07-02T00:00:00" =
      (true,
       { kbPreloadedOnly with
          chunkedDocuments := kbPreloadedOnly.chunkedDocuments ++
            successfulChunks embedChunkFailSecond "notes.txt" "2025-07-02T00:00:00"
              [uploadDoc1, uploadDoc2]
          userUploaded :=
            if "notes.txt" ∈ kbPreloadedOnly.userUploaded then kbPreloadedOnly.userUploaded
            else kbPreloadedOnly.userUploaded ++ ["notes.txt"] },
       some (insertSuccessful embedChunkFailSecond "notes.txt" "2025-07-02T00:00:00"
        (buildVectorDb embedOne kbPreloadedOnly.chunkedDocuments)
        [uploadDoc1, uploadDoc2])) :=
  ⟨rfl, by decide,
   c4_per_chunk_embedding_skips_failures embedOne embedChunkFailSecond kbPreloadedOnly
     [uploadDoc1, uploadDoc2] "notes.txt" "2025-07-02T00:00:00" rfl (by decide)⟩

/-! ## Claim C5 -/

/--
C5 (counterexample): the claim states that for *every* preloaded
filename, deletion fails and leaves the index unchanged.  The code's
guard tests membership in `user_uploaded_documents`, not the preloaded
manifest: in a state where `basel.pdf` is both preloaded and recorded
as a user upload (reachable because uploads are never checked against
the preloaded manifest), `remove_document("basel.pdf")` succeeds and
deletes every chunk named `basel.pdf`, the preloaded original
included, emptying the manifest lists.
-/
theorem c5_collided_preloaded_filename_is_deleted :
    kbCollided.documents = ["basel.pdf"] ∧
    (removeDocument embedOne kbCollided "basel.pdf").1 = true ∧
    (removeDocument embedOne kbCollided "basel.pdf").2.1.chunkedDocuments = [] ∧
    (removeDocument embedOne kbCollided "basel.pdf").2.1.userUploaded = [] := by
  decide

/--
C5 (amended): deletion of a preloaded filename fails — returning
`False` (surfaced as a generic HTTP 400, there is no dedicated
`ProtectedDocumentError` type) — and leaves the state completely
unchanged, *provided* the filename is not also recorded in
`user_uploaded_documents`; the guard is user-upload membership, not
preloaded membership.
-/
theorem c5_preloaded_delete_fails_when_not_uploaded
    (embed : String → Vec) (s : KBState) (f : String)
    (_hpre : f ∈ s.documents) (hnotup : f ∉ s.userUploaded) :
    removeDocument embed s f = (false, s, none) := by
  unfold removeDocument
  split_ifs with hinit
  · rfl
  · rfl

/-- C5 witness: the amended theorem applied to the preloaded-only KB. -/
theorem c5_preloaded_delete_fails_when_not_uploaded_witness :
    "basel.pdf" ∈ kbPreloadedOnly.documents ∧
    "basel.pdf" ∉ kbPreloadedOnly.userUploaded ∧
    removeDocument embedOne kbPreloadedOnly "basel.pdf" = (false, kbPreloadedOnly, none) :=
  ⟨by decide, by decide,
   c5_preloaded_delete_fails_when_not_uploaded embedOne kbPreloadedOnly "basel.pdf"
     (by decide) (by decide)⟩

end OpenAIChatApp
